import Mathlib

/-!
Verification of the SYNQ athlete-monitoring backend.

The development shallowly embeds the two request handlers of the FastAPI
backend (`backend/main.py`: `log_workout_checklist` and `log_vitals`) and
the Flask prediction endpoint (`app.py`: `predict`, together with the
module-level `FEATURES` fallback computation).  Python floats are modelled
as rationals (`ℚ`), optional values as `Option`, raised exceptions as
`Except`, and the database as an explicit list of write events.
-/

namespace Synq

/-! ## Compliance scoring (`backend/main.py`, `log_workout_checklist`) -/

/-- Inbound checklist payload, after `schemas.WorkoutLog`. -/
structure WorkoutLog where
  athlete_id : String
  session_type : String
  exercises_planned : List String
  exercises_completed : List String
  planned_load_score : ℚ
  deriving Repr, DecidableEq

/-- Stored `models.TrainingSession` fields populated by the handler
(`main.py` lines 116-124). -/
structure TrainingSession where
  athlete_id : String
  session_type : String
  exercises_planned : List String
  exercises_completed : List String
  planned_load : ℚ
  actual_load : ℚ
  compliance_score : ℚ
  deriving Repr, DecidableEq

/-- Compliance arithmetic of `main.py` lines 106-114: count the two lists;
if nothing was planned the compliance is `0.0`, otherwise it is the ratio
of the counts; the actual load is the planned load scaled by compliance.
Returns `(compliance, actual_load)`. -/
def score (planned completed : List String) (planned_load : ℚ) : ℚ × ℚ :=
  let total_planned := planned.length
  let total_done := completed.length
  let compliance : ℚ := if total_planned = 0 then 0 else (total_done : ℚ) / (total_planned : ℚ)
  (compliance, planned_load * compliance)

/-- The whole `/log_workout/` handler body: computes the score and builds
the `TrainingSession` record that is added to the database. -/
def log_workout_checklist (log : WorkoutLog) : TrainingSession :=
  let r := score log.exercises_planned log.exercises_completed log.planned_load_score
  { athlete_id := log.athlete_id
    session_type := log.session_type
    exercises_planned := log.exercises_planned
    exercises_completed := log.exercises_completed
    planned_load := log.planned_load_score
    actual_load := r.2
    compliance_score := r.1 }

end Synq

namespace Synq

/-! ## Vitals pipeline (`backend/main.py`, `log_vitals`) -/

/-- Inbound vitals payload, after `schemas.MetricInput`. -/
structure MetricInput where
  athlete_id : String
  bpm : Int
  hrv : ℚ
  rmssd : ℚ
  deriving Repr, DecidableEq

/-- Feature names of the one-row dataframe assembled in `main.py`
lines 63-68: heart rate plus three channels the strap does not measure. -/
def vitalsFeatureNames : List String :=
  ["Heart_Rate", "Body_Temperature", "Blood_Oxygen", "Unnamed: 3"]

/-- The one-row dataframe of `main.py` lines 63-68, in column order:
the measured heart rate, then the fixed defaults `37.0` (body
temperature), `98` (blood oxygen) and `1` (hidden bias feature). -/
def buildInputRow (data : MetricInput) : List ℚ :=
  [(data.bpm : ℚ), 37, 98, 1]

/-- A loaded model's `predict` on a one-row dataframe, returning the label
of the single row; `Except` models an exception raised during inference. -/
def ModelPredict : Type := List ℚ → Except String String

/-- Classification step of `main.py` lines 71-80: default to the safe
label; when a model is loaded, try `predict` and fall back to the sentinel
`"AI_Error"` if it raises. -/
def runSynqAI (rf_model : Option ModelPredict) (input_df : List ℚ) : String :=
  let fatigue_result := "Normal"
  match rf_model with
  | none => fatigue_result
  | some m =>
    match m input_df with
    | .ok prediction => prediction
    | .error _ => "AI_Error"

/-- Class names defined in `backend/models.py` of the 1.1 backend. -/
def modelsModuleClasses : List String :=
  ["Athlete", "SessionType", "EffortLevel", "TrainingSession",
   "GoalType", "Goal", "Baseline", "VitalReading", "FatigueAssessment"]

/-- Fields of the record `main.py` lines 83-89 try to construct: raw strap
fields plus the computed fatigue status, in a single object.  There is no
confidence field and no degraded flag. -/
structure DailyMetricFields where
  athlete_id : String
  bpm : Int
  hrv : ℚ
  rmssd : ℚ
  fatigue_status : String
  deriving Repr, DecidableEq

/-- The record `main.py` lines 83-89 populate (before any attribute-lookup
question): the caller-visible classification outcome. -/
def attemptedMetric (rf_model : Option ModelPredict) (data : MetricInput) :
    DailyMetricFields :=
  { athlete_id := data.athlete_id
    bpm := data.bpm
    hrv := data.hrv
    rmssd := data.rmssd
    fatigue_status := runSynqAI rf_model (buildInputRow data) }

/-- One durable write against the record store. -/
inductive DbWrite where
  | vitalReading (athlete_id : String) (heart_rate : Int)
      (hrv rmssd : Option ℚ) (body_temperature : Option ℚ) (spo2 : Option Int)
  | fatigueAssessment (athlete_id : String) (vital_reading_id : Nat)
      (fatigue_status : String) (confidence : Option ℚ)
  | dailyMetric (fields : DailyMetricFields)
  deriving Repr, DecidableEq

/-- Whole `/predict_fatigue/` handler of `main.py` lines 53-95: build the
row, classify, then instantiate `models.DailyMetric` and write it.  The
attribute lookup `models.DailyMetric` succeeds only if that class exists in
`backend/models.py`; otherwise the handler raises `AttributeError` and no
write happens.  On success the result is the list of database writes the
handler performs. -/
def log_vitals (rf_model : Option ModelPredict) (data : MetricInput) :
    Except String (List DbWrite) :=
  let input_df := buildInputRow data
  let fatigue_result := runSynqAI rf_model input_df
  if "DailyMetric" ∈ modelsModuleClasses then
    .ok [DbWrite.dailyMetric
      { athlete_id := data.athlete_id
        bpm := data.bpm
        hrv := data.hrv
        rmssd := data.rmssd
        fatigue_status := fatigue_result }]
  else
    .error "AttributeError: module models has no attribute DailyMetric"

/-! ## Flask prediction endpoint (`app.py`) -/

/-- JSON value kinds a request payload can carry for a feature. -/
inductive PyVal where
  | num (q : ℚ)
  | str (s : String)
  | pynone
  deriving Repr, DecidableEq

/-- Accumulated numeric value of a digit list, most significant first. -/
def natOfDigits (cs : List Char) : Nat :=
  cs.foldl (fun a c => 10 * a + (c.toNat - 48)) 0

/-- Leading and trailing whitespace removal (Python `str.strip`, which
`float` applies to string arguments). -/
def trimChars (cs : List Char) : List Char :=
  ((cs.dropWhile Char.isWhitespace).reverse.dropWhile Char.isWhitespace).reverse

/-- Splits a character list at the first decimal point, if any. -/
def splitAtDot : List Char → List Char × Option (List Char)
  | [] => ([], none)
  | c :: cs =>
    if c = '.' then ([], some cs)
    else
      let r := splitAtDot cs
      (c :: r.1, r.2)

/-- Python `float` applied to a string: optional sign, digits with at most
one decimal point, at least one digit overall.  Exponent notation and
special forms are not modelled; every string this development evaluates is
either a plain decimal or clearly non-numeric. -/
def parsePyFloat (s : String) : Option ℚ :=
  let cs := trimChars s.toList
  let signed : ℚ × List Char :=
    match cs with
    | '-' :: r => (-1, r)
    | '+' :: r => (1, r)
    | r => (1, r)
  let ip := (splitAtDot signed.2).1
  match (splitAtDot signed.2).2 with
  | none =>
    if ip.isEmpty || !(ip.all Char.isDigit) then none
    else some (signed.1 * (natOfDigits ip : ℚ))
  | some fp =>
    if (ip.isEmpty && fp.isEmpty) || !(ip.all Char.isDigit) || !(fp.all Char.isDigit) then
      none
    else
      some (signed.1 * ((natOfDigits ip : ℚ) + (natOfDigits fp : ℚ) / (10 : ℚ) ^ fp.length))

/-- Python `float(v)` on a payload value: numbers convert directly,
strings are parsed, `None` raises (modelled as `none`). -/
def pyFloat : PyVal → Option ℚ
  | .num q => some q
  | .str s => parsePyFloat s
  | .pynone => none

/-- Fallback feature-name list hardcoded at `app.py` lines 66-67 for
models that do not self-describe their schema. -/
def fallbackFEATURES : List String :=
  ["Heart_Rate", "Body_Temperature", "Blood_Oxygen", "Unnamed: 3",
   "Heart_Rate_Body_Temp", "Oxygen_Heart_Rate_Ratio"]

/-- Module-level `FEATURES` computation of `app.py` lines 63-67:
`getattr(model, "feature_names_in_", [])`, falling back to the hardcoded
list when the attribute is absent or the resulting list is empty. -/
def computeFEATURES (feature_names_in : Option (List String)) : List String :=
  let fs := feature_names_in.getD []
  if fs.isEmpty then fallbackFEATURES else fs

/-- Request payload: JSON object as a field-name/value association list. -/
abbrev Payload := List (String × PyVal)

/-- Dictionary lookup `payload.get(f)` (also deciding `f not in payload`). -/
def payloadLookup (payload : Payload) (f : String) : Option PyVal :=
  match payload with
  | [] => none
  | (k, v) :: rest => if k = f then some v else payloadLookup rest f

/-- Loaded scikit-learn model as consumed by the endpoint: `predict` on a
one-row frame yields the row's label; `predict_proba` may be absent. -/
structure FlaskModel where
  predict : List ℚ → String
  predict_proba : Option (List ℚ → List ℚ)

/-- The `missing` list of `app.py` line 177: declared features absent from
the payload, in declaration order. -/
def missingOf (FEATURES : List String) (payload : Payload) : List String :=
  FEATURES.filter (fun f => (payloadLookup payload f).isNone)

/-- The `bad` mapping of `app.py` lines 192-199: declared, supplied
features whose values fail `float` conversion, with the rejected values. -/
def badOf (FEATURES : List String) (payload : Payload) : List (String × PyVal) :=
  FEATURES.filterMap (fun f =>
    match payloadLookup payload f with
    | some v => match pyFloat v with
      | some _ => none
      | none => some (f, v)
    | none => none)

/-- The converted one-row frame `X` in declared feature order. -/
def rowOf (FEATURES : List String) (payload : Payload) : List ℚ :=
  FEATURES.filterMap (fun f => (payloadLookup payload f).bind pyFloat)

/-- Possible responses of the `/predict` endpoint. -/
inductive PredictResponse where
  | missingError (missing : List String) (expected_features : List String)
  | nonNumericError (bad : List (String × PyVal))
  | ok (prediction : String) (probabilities : Option (List (String × ℚ)))
  deriving Repr, DecidableEq

/-- The `/predict` view of `app.py` lines 165-221: reject when any
declared feature is missing (listing all of them), then reject when any
supplied value is non-numeric (listing field and value), and only then
build the row in feature order and invoke the model. -/
def predict (FEATURES CLASSES : List String) (model : FlaskModel)
    (payload : Payload) : PredictResponse :=
  let missing := missingOf FEATURES payload
  if missing ≠ [] then .missingError missing FEATURES
  else
    let bad := badOf FEATURES payload
    if bad ≠ [] then .nonNumericError bad
    else
      let X := rowOf FEATURES payload
      let pred := model.predict X
      match model.predict_proba with
      | some pp => .ok pred (some (CLASSES.zip (pp X)))
      | none => .ok pred none

/-- Helper: a `filterMap` whose function succeeds on every element
preserves the list length. -/
theorem length_filterMap_of_isSome {α β : Type} (f : α → Option β) :
    ∀ l : List α, (∀ a ∈ l, (f a).isSome) → (l.filterMap f).length = l.length := by
  intro l
  induction l with
  | nil => intro _; rfl
  | cons a t ih =>
    intro h
    obtain ⟨b, hb⟩ := Option.isSome_iff_exists.mp (h a (by simp))
    simp only [List.filterMap_cons, hb, List.length_cons]
    rw [ih (fun x hx => h x (by simp [hx]))]

end Synq

namespace Synq

/-- C1: the compliance score is the ratio of completed to planned counts
when something was planned, is `0.0` when nothing was planned, the actual
load is `planned_load * compliance`, and `score [] [] L = (0, 0)` for every
nonnegative `L`. -/
theorem score_compliance_spec (planned completed : List String) (L : ℚ) (hL : 0 ≤ L) :
    (planned.length ≠ 0 →
        (score planned completed L).1 = (completed.length : ℚ) / (planned.length : ℚ)) ∧
    (planned.length = 0 → (score planned completed L).1 = 0) ∧
    (score planned completed L).2 = L * (score planned completed L).1 ∧
    score ([] : List String) ([] : List String) L = (0, 0) := by
  refine ⟨fun h => ?_, fun h => ?_, ?_, ?_⟩
  · simp [score, h]
  · simp [score, h]
  · simp [score]
  · simp [score]

/-- Witness for C1 at `planned = ["a"]`, `completed = ["a"]`, `L = 10`. -/
theorem score_compliance_spec_witness :
    ((["a"] : List String).length ≠ 0 →
        (score ["a"] ["a"] 10).1 = (((["a"] : List String).length : ℚ) / ((["a"] : List String).length : ℚ))) ∧
    ((["a"] : List String).length = 0 → (score ["a"] ["a"] 10).1 = 0) ∧
    (score ["a"] ["a"] 10).2 = 10 * (score ["a"] ["a"] 10).1 ∧
    score ([] : List String) ([] : List String) 10 = (0, 0) :=
  score_compliance_spec ["a"] ["a"] 10 (by norm_num)

/-- C2: scoring depends only on the lengths of the two lists — no
membership check of completed entries against the plan — and in particular
`score ["a"] ["a","a","a"] 4 = (3, 12)`. -/
theorem score_length_based :
    (∀ (p c p' c' : List String) (L : ℚ), p.length = p'.length → c.length = c'.length →
        score p c L = score p' c' L) ∧
    score ["a"] ["a", "a", "a"] 4 = (3, 12) := by
  constructor
  · intro p c p' c' L hp hc
    simp [score, hp, hc]
  · norm_num [score]

/-- Witness for C2: two pairs of lists with unrelated entries but equal
lengths score identically. -/
theorem score_length_based_witness :
    score ["a"] ["x", "y", "z"] 4 = score ["b"] ["p", "q", "r"] 4 :=
  score_length_based.1 ["a"] ["x", "y", "z"] ["b"] ["p", "q", "r"] 4 rfl rfl

/-- C3 counterexample: completing three items against a one-item plan
stores a compliance score of `3`, which is not `≤ 1`, refuting the claim
that every stored compliance score lies in `[0, 1]`. -/
theorem compliance_score_exceeds_one :
    ¬ ((log_workout_checklist
          { athlete_id := "a1", session_type := "Gym",
            exercises_planned := ["a"], exercises_completed := ["a", "a", "a"],
            planned_load_score := 4 }).compliance_score ≤ 1) := by
  norm_num [log_workout_checklist, score]

/-- C3 amended: the stored compliance score is always nonnegative, and it
lies in `[0, 1]` whenever the completed list is no longer than the planned
list; over-completion can push it above `1`. -/
theorem compliance_score_bounds (log : WorkoutLog) :
    0 ≤ (log_workout_checklist log).compliance_score ∧
    (log.exercises_completed.length ≤ log.exercises_planned.length →
        (log_workout_checklist log).compliance_score ≤ 1) := by
  constructor
  · simp only [log_workout_checklist, score]
    split
    · exact le_refl 0
    · positivity
  · intro hle
    simp only [log_workout_checklist, score]
    split
    · exact zero_le_one
    · rename_i h
      rw [div_le_one (by positivity)]
      exact_mod_cast hle

/-- Witness for C3's amended bound at a concrete fully-completed session. -/
theorem compliance_score_bounds_witness :
    0 ≤ (log_workout_checklist
          { athlete_id := "a1", session_type := "Gym",
            exercises_planned := ["a", "b"], exercises_completed := ["a"],
            planned_load_score := 10 }).compliance_score ∧
    (log_workout_checklist
          { athlete_id := "a1", session_type := "Gym",
            exercises_planned := ["a", "b"], exercises_completed := ["a"],
            planned_load_score := 10 }).compliance_score ≤ 1 := by
  have h := compliance_score_bounds
    { athlete_id := "a1", session_type := "Gym",
      exercises_planned := ["a", "b"], exercises_completed := ["a"],
      planned_load_score := 10 }
  exact ⟨h.1, h.2 (by norm_num)⟩

/-- C4: refuted on the code as written — `log_vitals` classifies first and
then attempts a single combined write of `models.DailyMetric`; since
`backend/models.py` defines no class of that name (it defines
`VitalReading` and `FatigueAssessment` instead), every request raises
`AttributeError` at the persistence step: no `VitalReading` is persisted
as a first step and no two separate durable writes occur. -/
theorem log_vitals_attribute_error (rf_model : Option ModelPredict) (data : MetricInput) :
    log_vitals rf_model data
      = .error "AttributeError: module models has no attribute DailyMetric" := by
  rw [log_vitals, if_neg]
  decide

/-- Cross-version model predicting the safe label for every row. -/
def genuineNormalModel : ModelPredict := fun _ => .ok "Normal"

/-- C5 counterexample: on the same input, the caller-visible record
produced with no model loaded equals the record produced by a genuinely
loaded model that predicts "Normal" — there is no degraded flag and no
field distinguishing the two, refuting observability of degraded mode. -/
theorem degraded_mode_indistinguishable :
    attemptedMetric none { athlete_id := "a1", bpm := 140, hrv := 50, rmssd := 30 }
      = attemptedMetric (some genuineNormalModel)
          { athlete_id := "a1", bpm := 140, hrv := 50, rmssd := 30 } := rfl

/-- C5 amended: with no model loaded, classification returns the fixed
safe label "Normal" for every input, and no confidence value exists in the
stored record; but the degraded condition is not observable — the record
carries no flag and coincides with that of a genuine "Normal" prediction. -/
theorem degraded_mode_returns_normal (data : MetricInput) :
    runSynqAI none (buildInputRow data) = "Normal" ∧
    attemptedMetric none data = attemptedMetric (some genuineNormalModel) data :=
  ⟨rfl, rfl⟩

/-- C6: when the loaded model's `predict` raises on the built row, the
classification step returns the sentinel label "AI_Error" (no confidence
field exists) and the handler's record carries the sentinel instead of the
exception propagating out of the scoring call. -/
theorem classify_catches_inference_error (m : ModelPredict) (data : MetricInput)
    (e : String) (h : m (buildInputRow data) = .error e) :
    runSynqAI (some m) (buildInputRow data) = "AI_Error" ∧
    (attemptedMetric (some m) data).fatigue_status = "AI_Error" := by
  refine ⟨?_, ?_⟩ <;> simp [runSynqAI, attemptedMetric, h]

/-- Model whose `predict` raises on every row. -/
def raisingModel : ModelPredict := fun _ => .error "shape mismatch"

/-- Witness for C6 at a concrete raising model and a concrete sample. -/
theorem classify_catches_inference_error_witness :
    runSynqAI (some raisingModel)
        (buildInputRow { athlete_id := "a1", bpm := 140, hrv := 50, rmssd := 30 })
      = "AI_Error" ∧
    (attemptedMetric (some raisingModel)
        { athlete_id := "a1", bpm := 140, hrv := 50, rmssd := 30 }).fatigue_status
      = "AI_Error" :=
  classify_catches_inference_error raisingModel
    { athlete_id := "a1", bpm := 140, hrv := 50, rmssd := 30 } "shape mismatch" rfl

/-- C8: for every inbound sample the built row has exactly the declared
feature count, and the channels the sample cannot supply sit at their
fixed defaults: body temperature `37.0`, blood oxygen `98`, bias `1`. -/
theorem build_input_row_defaults (data : MetricInput) :
    (buildInputRow data).length = vitalsFeatureNames.length ∧
    (buildInputRow data)[1]? = some 37 ∧
    (buildInputRow data)[2]? = some 98 ∧
    (buildInputRow data)[3]? = some 1 :=
  ⟨rfl, rfl, rfl, rfl⟩

/-- C7: when every declared feature is supplied but some supplied value is
non-numeric, the endpoint answers with the non-numeric error carrying the
offending field and its rejected value, and the model is never invoked:
the response is the same for every model. -/
theorem predict_rejects_non_numeric (FEATURES CLASSES : List String)
    (model : FlaskModel) (payload : Payload) (f : String) (v : PyVal)
    (hf : f ∈ FEATURES) (hv : payloadLookup payload f = some v)
    (hbad : pyFloat v = none)
    (hall : ∀ g ∈ FEATURES, (payloadLookup payload g).isSome) :
    predict FEATURES CLASSES model payload = .nonNumericError (badOf FEATURES payload) ∧
    (f, v) ∈ badOf FEATURES payload ∧
    ∀ m' : FlaskModel, predict FEATURES CLASSES m' payload
        = .nonNumericError (badOf FEATURES payload) := by
  have hmiss : missingOf FEATURES payload = [] := by
    rw [missingOf, List.filter_eq_nil_iff]
    intro a ha
    have h1 := hall a ha
    cases hx : payloadLookup payload a with
    | none => rw [hx] at h1; simp at h1
    | some w => simp [hx]
  have hmem : (f, v) ∈ badOf FEATURES payload := by
    rw [badOf]
    exact List.mem_filterMap.mpr ⟨f, hf, by simp [hv, hbad]⟩
  have hbadne : badOf FEATURES payload ≠ [] := List.ne_nil_of_mem hmem
  refine ⟨?_, hmem, fun m' => ?_⟩ <;> simp [predict, hmiss, hbadne]

/-- Model predicting a fixed label, probabilities unsupported. -/
def constModel : FlaskModel := { predict := fun _ => "Fatigued", predict_proba := none }

/-- Payload supplying the single declared feature with a non-numeric string. -/
def badPayload : Payload := [("Heart_Rate", PyVal.str "fast")]

/-- Witness for C7: one declared feature, supplied as the string "fast". -/
theorem predict_rejects_non_numeric_witness :
    predict ["Heart_Rate"] [] constModel badPayload
        = .nonNumericError (badOf ["Heart_Rate"] badPayload) ∧
    ("Heart_Rate", PyVal.str "fast") ∈ badOf ["Heart_Rate"] badPayload ∧
    ∀ m' : FlaskModel, predict ["Heart_Rate"] [] m' badPayload
        = .nonNumericError (badOf ["Heart_Rate"] badPayload) :=
  predict_rejects_non_numeric ["Heart_Rate"] [] constModel badPayload
    "Heart_Rate" (PyVal.str "fast") (by decide) (by decide) (by decide) (by decide)

/-- C9: an absent or empty self-described feature list makes the module
fall back to the hardcoded feature list, every subsequent call to the
endpoint uses that fallback list, and a fully supplied numeric payload
builds a row of exactly the fallback list's length. -/
theorem features_fallback :
    computeFEATURES none = fallbackFEATURES ∧
    computeFEATURES (some []) = fallbackFEATURES ∧
    (∀ (CLASSES : List String) (model : FlaskModel) (payload : Payload),
        predict (computeFEATURES none) CLASSES model payload
          = predict fallbackFEATURES CLASSES model payload) ∧
    ∀ payload : Payload,
        (∀ g ∈ fallbackFEATURES, ((payloadLookup payload g).bind pyFloat).isSome) →
        (rowOf fallbackFEATURES payload).length = fallbackFEATURES.length := by
  refine ⟨rfl, rfl, fun _ _ _ => rfl, fun payload h => ?_⟩
  rw [rowOf]
  exact length_filterMap_of_isSome _ fallbackFEATURES h

/-- Payload supplying every fallback feature with a numeric value. -/
def fullPayload : Payload :=
  [("Heart_Rate", PyVal.num 80), ("Body_Temperature", PyVal.num 37),
   ("Blood_Oxygen", PyVal.num 98), ("Unnamed: 3", PyVal.num 1),
   ("Heart_Rate_Body_Temp", PyVal.num 2960), ("Oxygen_Heart_Rate_Ratio", PyVal.num 1)]

/-- Witness for C9 at a payload supplying all six fallback features. -/
theorem features_fallback_witness :
    (rowOf fallbackFEATURES fullPayload).length = fallbackFEATURES.length :=
  features_fallback.2.2.2 fullPayload (by decide)

/-- C10: when any declared feature is absent from the payload the request
is rejected with an error listing every missing feature name, no default
is substituted, and the model is never invoked: the same error response
results for every model. -/
theorem predict_rejects_missing (FEATURES CLASSES : List String)
    (model : FlaskModel) (payload : Payload)
    (hmiss : missingOf FEATURES payload ≠ []) :
    predict FEATURES CLASSES model payload
        = .missingError (missingOf FEATURES payload) FEATURES ∧
    (∀ f ∈ FEATURES, payloadLookup payload f = none →
        f ∈ missingOf FEATURES payload) ∧
    ∀ m' : FlaskModel, predict FEATURES CLASSES m' payload
        = .missingError (missingOf FEATURES payload) FEATURES := by
  refine ⟨?_, ?_, fun m' => ?_⟩
  · simp [predict, hmiss]
  · intro f hf hnone
    rw [missingOf]
    exact List.mem_filter.mpr ⟨hf, by simp [hnone]⟩
  · simp [predict, hmiss]

/-- Payload supplying only the first of two declared features. -/
def partialPayload : Payload := [("Heart_Rate", PyVal.num 80)]

/-- Witness for C10 at two declared features with one supplied. -/
theorem predict_rejects_missing_witness :
    predict ["Heart_Rate", "Body_Temperature"] [] constModel partialPayload
        = .missingError (missingOf ["Heart_Rate", "Body_Temperature"] partialPayload)
            ["Heart_Rate", "Body_Temperature"] ∧
    (∀ f ∈ (["Heart_Rate", "Body_Temperature"] : List String),
        payloadLookup partialPayload f = none →
        f ∈ missingOf ["Heart_Rate", "Body_Temperature"] partialPayload) ∧
    ∀ m' : FlaskModel, predict ["Heart_Rate", "Body_Temperature"] [] m' partialPayload
        = .missingError (missingOf ["Heart_Rate", "Body_Temperature"] partialPayload)
            ["Heart_Rate", "Body_Temperature"] :=
  predict_rejects_missing ["Heart_Rate", "Body_Temperature"] [] constModel partialPayload
    (by decide)

end Synq
